import Mathlib

/-!
Verification development for `cmd/medius/images/verify.go` of the
containerdisks repository.

The Go file implements the `medius images verify` command: it loads a
results ledger, dispatches a verification attempt per catalog artifact to a
worker pool, and each attempt runs the state machine
create VM → wait ready → fetch VMI → run tests → (deferred) delete VM,
with `errors.Is(ctx.Err(), context.Canceled)` checkpoints between stages.

The embedding below is shallow: external collaborators (the cluster client,
the ssh library, randomness, the per-artifact test functions) are modelled
as oracle fields of an environment record, and each function of the source
becomes a Lean function of that environment which additionally records the
externally visible calls it makes (an event trace) and the context statuses
it observed at the cancellation checkpoints (a gate trace).
-/

/-- Go error values that this code can see.  `context.Canceled` and
`context.DeadlineExceeded` are the two sentinel errors returned by
`ctx.Err()`; `wait.ErrWaitTimeout` is returned by the polling helper;
`msg` stands for any other error value. -/
inductive GoError where
  | canceled
  | deadlineExceeded
  | waitTimeout
  | msg (s : String)
deriving DecidableEq, Repr

/-- The status of a `context.Context` at one observation point. -/
inductive CtxStatus where
  | live
  | canceled
  | deadlineExceeded
deriving DecidableEq, Repr

/-- `ctx.Err()`: nil while the context is live, `context.Canceled` after
cancellation, `context.DeadlineExceeded` after its deadline passed. -/
def CtxStatus.err : CtxStatus → Option GoError
  | .live => none
  | .canceled => some GoError.canceled
  | .deadlineExceeded => some GoError.deadlineExceeded

/-- `errors.Is(e, context.Canceled)` for the error values of this model:
both sentinels are leaf errors, so `errors.Is` is plain equality. -/
def errorsIsCanceled : Option GoError → Bool
  | some GoError.canceled => true
  | _ => false

/-- `api.ArtifactResult`: the ledger entry of one artifact (the fields this
command reads and writes: the image tag list and the verified flag). -/
structure ArtifactResult where
  tags : List String
  verified : Bool
deriving DecidableEq, Repr

/-- `api.Artifact`, restricted to what `verify.go` consumes: the metadata
name (used for the generated VM name), the `Describe()` identity string
(the ledger key), and the number of test functions in `Tests()`.  The test
functions themselves are external; their outcomes are environment oracles. -/
structure Artifact where
  name : String
  describe : String
  numTests : Nat
deriving DecidableEq, Repr

/-- The externally visible calls an attempt makes, in program order. -/
inductive Event where
  | generateKey
  | createVM (name imgRef : String)
  | getVMI (name : String)
  | runTest (idx : Nat)
  | delete (name : String) (graceSeconds : Nat)
deriving DecidableEq, Repr

/-- Recognizer for delete calls. -/
def isDeleteEvent : Event → Bool
  | .delete _ _ => true
  | _ => false

/-- Recognizer for cluster Create calls. -/
def isCreateEvent : Event → Bool
  | .createVM _ _ => true
  | _ => false

/-- Recognizer for test executions. -/
def isTestEvent : Event → Bool
  | .runTest _ => true
  | _ => false

/-- Outcome of one `client.Get(name, ...)` inside the readiness poll:
either the get fails, or it returns a VM whose `Status.Ready` is read. -/
inductive GetOutcome where
  | err (e : GoError)
  | ok (ready : Bool)
deriving DecidableEq, Repr

/-- Oracle for `waitVMReady`: `get i` is the outcome of the poll made `i`
seconds after the wait started (interval one second, first poll immediate),
and `ctxAt i` is the context status observed before the poll at second `i`. -/
structure WaitEnv where
  get : Nat → GetOutcome
  ctxAt : Nat → CtxStatus

/-- Oracle record for one verification attempt: the outcome of every
external call `verifyArtifact` makes, and the context status at each
checkpoint, in source order (line numbers refer to verify.go). -/
structure AttemptEnv where
  /-- error of `ed25519.GenerateKey` (line 164) -/
  keyGenErr : Option GoError
  /-- error of `ssh.NewPublicKey` (line 186) -/
  sshNewKeyErr : Option GoError
  /-- the string `ssh.MarshalAuthorizedKey` produced (line 191); its
  contract guarantees a non-empty string ending in a newline -/
  marshalled : String
  /-- the 5-character suffix `urand.String(5)` produced (line 196) -/
  nameSuffix : String
  /-- context status at the checkpoint of line 105 -/
  ctx1 : CtxStatus
  /-- error of `vmClient.Create` (line 111) -/
  createErr : Option GoError
  /-- context status at the checkpoint of line 122 -/
  ctx2 : CtxStatus
  /-- oracle for the readiness poll (line 127) -/
  waitEnv : WaitEnv
  /-- context status at the checkpoint of line 128 (consulted only when
  the wait returned an error) -/
  ctxAfterWait : CtxStatus
  /-- error of the VMI `Get` (line 136) -/
  getVMIErr : Option GoError
  /-- context status at the checkpoint of line 141 -/
  ctx3 : CtxStatus
  /-- outcome of the i-th test function (line 147) -/
  testOutcome : Nat → Option GoError
  /-- context status at the checkpoint of line 151 after the i-th test -/
  ctxTest : Nat → CtxStatus
  /-- error of the deferred `vmClient.Delete` (line 117) -/
  deleteErr : Option GoError

/-- The options `verifyArtifact` reads: `options.Registry`, the namespace
and `options.VerifyImagesOptions.Timeout` (seconds). -/
structure VerifyOptions where
  registry : String
  nspace : String
  timeout : Nat
deriving DecidableEq, Repr

/-- `NewVerifyImagesCommand` defaults: namespace "kubevirt", timeout 600. -/
def defaultVerifyOptions (registry : String) : VerifyOptions :=
  ⟨registry, "kubevirt", 600⟩

/-- The data of the built VM object that the rest of the attempt uses:
its generated name and the image reference it boots. -/
structure VMSpec where
  name : String
  imgRef : String
deriving DecidableEq, Repr

/-- Result of one attempt: the returned `*api.ArtifactResult` and `error`,
the trace of external calls, and the context statuses observed at the
cancellation checkpoints that were reached, in order. -/
structure AttemptOut where
  res : Option ArtifactResult
  err : Option GoError
  events : List Event
  gates : List CtxStatus
deriving DecidableEq, Repr

/-- Go string slicing `s[:j]` with an `int` bound: out of the range
`[0, len(s)]` is a runtime panic, modelled as `none`. -/
def goStringSliceTo (s : String) (j : Int) : Option String :=
  if 0 ≤ j ∧ j ≤ (s.length : Int) then some (String.mk (s.data.take j.toNat)) else none

/-- `marshallPublicKey` (lines 185-193): `ssh.NewPublicKey` may fail
(oracle `newKeyErr`); otherwise the marshalled authorized-key string is
sliced as `marshalled[:len(marshalled)-1]`, dropping the trailing newline.
The outer `Option` is the Go runtime: `none` is the slice-bounds panic that
would occur if the marshalled string were empty. -/
def marshallPublicKey (newKeyErr : Option GoError) (marshalled : String) :
    Option (Except GoError String) :=
  match newKeyErr with
  | some e => some (Except.error e)
  | none => (goStringSliceTo marshalled ((marshalled.length : Int) - 1)).map Except.ok

/-- `randName` (lines 195-197): `name + "-" + urand.String(5)`. -/
def randName (name suffix : String) : String :=
  name ++ "-" ++ suffix

/-- `path.Join(registry, tag)` as used on line 99.  For the non-empty,
already-clean path elements this command joins (a registry prefix and an
image tag) Go's `path.Join` is concatenation with a single slash. -/
def pathJoin (a b : String) : String :=
  a ++ "/" ++ b

/-- `createVM` (lines 163-183): generate a keypair, marshal the public
half, render user data and build the VM object with a randomized name.
Returns the events it performed and either the error or the VM data.
The `none` branch of the marshalling is unreachable under the
`MarshalAuthorizedKey` contract (non-empty output); it is mapped to an
error value so the function stays total. -/
def createVM (env : AttemptEnv) (a : Artifact) (imgRef : String) :
    List Event × Except GoError VMSpec :=
  match env.keyGenErr with
  | some e => ([Event.generateKey], Except.error e)
  | none =>
    match marshallPublicKey env.sshNewKeyErr env.marshalled with
    | some (Except.error e) => ([Event.generateKey], Except.error e)
    | some (Except.ok _) =>
      ([Event.generateKey], Except.ok ⟨randName a.name env.nameSuffix, imgRef⟩)
    | none => ([Event.generateKey], Except.error (GoError.msg "slice bounds out of range"))

/-- The poll interval of `waitVMReady` (line 200): `time.Second`, in seconds. -/
def waitInterval : Nat := 1

/-- The loop of `wait.PollImmediateWithContext` (line 200) specialised to
the condition of lines 201-207.  `fuel` is the number of one-second ticks
remaining until the timeout; `i` is the index of the current poll.  The
condition runs immediately (before any tick or context check); between
polls the context is consulted and its error returned if it is done; when
the ticks are exhausted `wait.ErrWaitTimeout` is returned. -/
def waitVMReadyAux (w : WaitEnv) : Nat → Nat → Option GoError
  | 0, i =>
    match w.get i with
    | GetOutcome.err e => some e
    | GetOutcome.ok true => none
    | GetOutcome.ok false => some GoError.waitTimeout
  | f + 1, i =>
    match w.get i with
    | GetOutcome.err e => some e
    | GetOutcome.ok true => none
    | GetOutcome.ok false =>
      match (w.ctxAt (i + 1)).err with
      | some e => some e
      | none => waitVMReadyAux w f (i + 1)

/-- `waitVMReady` (lines 199-209): poll every `waitInterval` second, first
poll immediate, for at most `timeout` seconds. -/
def waitVMReady (w : WaitEnv) (timeout : Nat) : Option GoError :=
  waitVMReadyAux w (timeout / waitInterval) 0

/-- The test loop (lines 146-154): run the test functions in declared
order; a failing test returns its error at once; after each passing test
the cancellation checkpoint of line 151 is consulted.  `n` is the number
of remaining tests, `i` the index of the next one; on `n = 0` all tests
passed and the success result of lines 157-160 is produced. -/
def runTests (testOutcome : Nat → Option GoError) (ctxTest : Nat → CtxStatus)
    (tags : List String) : Nat → Nat → AttemptOut
  | 0, _ => ⟨some ⟨tags, true⟩, none, [], []⟩
  | n + 1, i =>
    match testOutcome i with
    | some e => ⟨none, some e, [Event.runTest i], []⟩
    | none =>
      if errorsIsCanceled (ctxTest i).err then
        ⟨none, none, [Event.runTest i], [ctxTest i]⟩
      else
        let o := runTests testOutcome ctxTest tags n (i + 1)
        ⟨o.res, o.err, Event.runTest i :: o.events, ctxTest i :: o.gates⟩

/-- Lines 122-160: the part of the attempt that runs after the VM was
created (and the deferred delete registered): checkpoint, readiness wait,
checkpoint on wait error, VMI fetch, checkpoint, tests. -/
def afterCreate (env : AttemptEnv) (a : Artifact) (tags : List String)
    (vmName : String) (timeout : Nat) : AttemptOut :=
  if errorsIsCanceled env.ctx2.err then ⟨none, none, [], [env.ctx2]⟩
  else
    match waitVMReady env.waitEnv timeout with
    | some e =>
      if errorsIsCanceled env.ctxAfterWait.err then
        ⟨none, none, [], [env.ctx2, env.ctxAfterWait]⟩
      else ⟨none, some e, [], [env.ctx2, env.ctxAfterWait]⟩
    | none =>
      match env.getVMIErr with
      | some e => ⟨none, some e, [Event.getVMI vmName], [env.ctx2]⟩
      | none =>
        if errorsIsCanceled env.ctx3.err then
          ⟨none, none, [Event.getVMI vmName], [env.ctx2, env.ctx3]⟩
        else
          let o := runTests env.testOutcome env.ctxTest tags a.numTests 0
          ⟨o.res, o.err, Event.getVMI vmName :: o.events,
            env.ctx2 :: env.ctx3 :: o.gates⟩

/-- `verifyArtifact` (lines 91-161).  The zero-tags precondition returns
(nil, nil) at once; otherwise the image reference is built from the first
tag, the VM object is built, the line-105 checkpoint is consulted, the VM
is created, and from there `afterCreate` runs with the deferred delete
(grace period 0) appended to the trace on every exit path. -/
def verifyArtifact (env : AttemptEnv) (a : Artifact) (result : ArtifactResult)
    (opts : VerifyOptions) : AttemptOut :=
  match result.tags with
  | [] => ⟨none, none, [], []⟩
  | t0 :: _ =>
    match createVM env a (pathJoin opts.registry t0) with
    | (evs, Except.error e) => ⟨none, some e, evs, []⟩
    | (evs, Except.ok vm) =>
      if errorsIsCanceled env.ctx1.err then ⟨none, none, evs, [env.ctx1]⟩
      else
        match env.createErr with
        | some e => ⟨none, some e, evs ++ [Event.createVM vm.name vm.imgRef], [env.ctx1]⟩
        | none =>
          let o := afterCreate env a result.tags vm.name opts.timeout
          ⟨o.res, o.err,
            evs ++ [Event.createVM vm.name vm.imgRef] ++ o.events
              ++ [Event.delete vm.name 0],
            env.ctx1 :: o.gates⟩

/-- The logging effect of the deferred closure (lines 116-120): the
"Failed to delete VM" line is printed iff the delete call was issued and
returned an error.  The closure assigns the delete error to the local
`err`, but the function's return values are unnamed, so the returned
result and error are unaffected. -/
def attemptLogsDeleteFailure (env : AttemptEnv) (a : Artifact)
    (result : ArtifactResult) (opts : VerifyOptions) : Bool :=
  (verifyArtifact env a result opts).events.any isDeleteEvent && env.deleteErr.isSome

/-- Replace only the delete-call oracle of an environment. -/
def setDeleteErr (env : AttemptEnv) (d : Option GoError) : AttemptEnv :=
  ⟨env.keyGenErr, env.sshNewKeyErr, env.marshalled, env.nameSuffix, env.ctx1,
    env.createErr, env.ctx2, env.waitEnv, env.ctxAfterWait, env.getVMIErr,
    env.ctx3, env.testOutcome, env.ctxTest, d⟩

/-- The results ledger: the map read by `readResultsFile` and written by
`writeResultsFile`, keyed by `artifact.Metadata().Describe()`. -/
def Ledger : Type := String → Option ArtifactResult

/-- `results[key] = value` on a Go map. -/
def ledgerInsert (m : Ledger) (k : String) (v : ArtifactResult) : Ledger :=
  fun x => if x = k then some v else m x

/-- One `workerResult` sent on the results channel. -/
structure WorkerResult where
  key : String
  value : ArtifactResult
deriving DecidableEq, Repr

/-- The drain loop of lines 71-73: fold the received results into the
ledger in arrival order, overwriting the entry of each received key. -/
def mergeResults (m : Ledger) (rs : List WorkerResult) : Ledger :=
  rs.foldl (fun acc r => ledgerInsert acc r.key r.value) m

/-- The capacity of the results channel (line 52):
`make(chan workerResult, len(common.Registry))`, the number of catalog
entries. -/
def resultsChanCapacity (catalog : List Artifact) : Nat :=
  catalog.length

/-- Observable outcome of the per-artifact callback of lines 53-68:
the worker result sent on the channel (if any), the returned error,
whether `verifyArtifact` was invoked at all (the dispatch decision of
lines 54-57), and the attempt's external calls. -/
structure CallbackOut where
  sent : Option WorkerResult
  err : Option GoError
  dispatched : Bool
  events : List Event
deriving Repr

/-- The callback of lines 53-68: look the artifact up in the ledger;
`if !ok || r.Verified { return nil }`; otherwise run `verifyArtifact` and
send a keyed copy of its non-nil result. -/
def workerCallback (results : Ledger) (env : AttemptEnv) (opts : VerifyOptions)
    (a : Artifact) : CallbackOut :=
  match results a.describe with
  | none => ⟨none, none, false, []⟩
  | some r =>
    if r.verified then ⟨none, none, false, []⟩
    else
      let o := verifyArtifact env a r opts
      ⟨o.res.map (fun v => ⟨a.describe, v⟩), o.err, true, o.events⟩

/-- Modelled from the spec: `spawnWorkers` and `common.Registry` are not
part of the given source.  Per spec §6 the worker pool invokes the
callback once per catalog artifact, and per §4.5 the aggregator drains the
channel after all workers finished.  `runVerify` composes one such run:
every catalog artifact's callback runs with its own oracle environment,
the sent results are collected (this fixed order is one possible channel
arrival order; order independence is proved separately), and the drain
loop of lines 71-73 merges them into the ledger. -/
def runVerify (envs : Artifact → AttemptEnv) (catalog : List Artifact)
    (m : Ledger) (opts : VerifyOptions) : Ledger :=
  mergeResults m
    ((catalog.map (fun a => workerCallback m (envs a) opts a)).filterMap
      (fun c => c.sent))

/-- The attempt reaches the cluster Create call: there are tags, spec
construction succeeded (keygen and marshalling), and the line-105
checkpoint did not observe cancellation. -/
def createReached (env : AttemptEnv) (r : ArtifactResult) : Prop :=
  r.tags ≠ [] ∧ env.keyGenErr = none ∧ env.sshNewKeyErr = none ∧
    0 < env.marshalled.length ∧ ¬ errorsIsCanceled env.ctx1.err

/-- The attempt reaches the test loop: Create succeeded and every stage
up to line 145 passed. -/
def reachesTests (env : AttemptEnv) (r : ArtifactResult) (timeout : Nat) : Prop :=
  createReached env r ∧ env.createErr = none ∧
    ¬ errorsIsCanceled env.ctx2.err ∧ waitVMReady env.waitEnv timeout = none ∧
    env.getVMIErr = none ∧ ¬ errorsIsCanceled env.ctx3.err

/-- Every stage of the attempt succeeds and no checkpoint observes
cancellation. -/
def allSuccessEnv (env : AttemptEnv) (a : Artifact) (timeout : Nat) : Prop :=
  env.keyGenErr = none ∧ env.sshNewKeyErr = none ∧ 0 < env.marshalled.length ∧
    env.ctx1 = CtxStatus.live ∧ env.createErr = none ∧
    env.ctx2 = CtxStatus.live ∧ waitVMReady env.waitEnv timeout = none ∧
    env.getVMIErr = none ∧ env.ctx3 = CtxStatus.live ∧
    (∀ i, i < a.numTests → env.testOutcome i = none ∧ env.ctxTest i = CtxStatus.live)

/-- Every checkpoint observes an expired (deadline-exceeded) context. -/
def allGatesDeadline (env : AttemptEnv) : Prop :=
  env.ctx1 = CtxStatus.deadlineExceeded ∧ env.ctx2 = CtxStatus.deadlineExceeded ∧
    env.ctxAfterWait = CtxStatus.deadlineExceeded ∧
    env.ctx3 = CtxStatus.deadlineExceeded ∧
    (∀ i, env.ctxTest i = CtxStatus.deadlineExceeded)

/-! Concrete fixtures used by witnesses and counterexamples. -/

/-- A wait oracle whose first poll reports ready. -/
def okWaitEnv : WaitEnv :=
  ⟨fun _ => GetOutcome.ok true, fun _ => CtxStatus.live⟩

/-- An oracle environment in which every external call succeeds. -/
def successEnv : AttemptEnv :=
  ⟨none, none, "ssh-ed25519 AAAATESTKEY\n", "ab12x", CtxStatus.live, none,
    CtxStatus.live, okWaitEnv, CtxStatus.live, none, CtxStatus.live,
    fun _ => none, fun _ => CtxStatus.live, none⟩

/-- The fedora artifact of the spec's scenario, with two test functions. -/
def fedoraArtifact : Artifact :=
  ⟨"fedora", "fedora", 2⟩

/-- An empty ledger. -/
def emptyLedger : Ledger := fun _ => none

/-- A ledger holding exactly an unverified fedora entry with one tag. -/
def fedoraLedger : Ledger :=
  fun k => if k = "fedora" then some ⟨["fedora:39"], false⟩ else none

/-- An environment whose line-105 checkpoint observes cancellation. -/
def canceledEnv : AttemptEnv :=
  ⟨none, none, "ssh-ed25519 AAAATESTKEY\n", "ab12x", CtxStatus.canceled, none,
    CtxStatus.live, okWaitEnv, CtxStatus.live, none, CtxStatus.live,
    fun _ => none, fun _ => CtxStatus.live, none⟩

/-- An environment in which the second test function fails. -/
def secondTestFailEnv : AttemptEnv :=
  ⟨none, none, "ssh-ed25519 AAAATESTKEY\n", "ab12x", CtxStatus.live, none,
    CtxStatus.live, okWaitEnv, CtxStatus.live, none, CtxStatus.live,
    fun i => if i = 1 then some (GoError.msg "test failed") else none,
    fun _ => CtxStatus.live, none⟩

/-- A wait oracle whose third poll's get fails. -/
def errWaitEnv : WaitEnv :=
  ⟨fun i => if i = 2 then GetOutcome.err (GoError.msg "get failed")
    else GetOutcome.ok false, fun _ => CtxStatus.live⟩

/-- A wait oracle that never reports ready. -/
def neverReadyWaitEnv : WaitEnv :=
  ⟨fun _ => GetOutcome.ok false, fun _ => CtxStatus.live⟩

/-- A wait oracle cancelled before the poll of second 2. -/
def cancelWaitEnv : WaitEnv :=
  ⟨fun _ => GetOutcome.ok false,
    fun i => if i = 2 then CtxStatus.canceled else CtxStatus.live⟩

/-- A wait oracle under a context that has exceeded its deadline. -/
def deadlineWaitEnv : WaitEnv :=
  ⟨fun _ => GetOutcome.ok false, fun _ => CtxStatus.deadlineExceeded⟩

/-- An environment whose every checkpoint observes an expired deadline. -/
def deadlineEnv : AttemptEnv :=
  ⟨none, none, "ssh-ed25519 AAAATESTKEY\n", "ab12x", CtxStatus.deadlineExceeded,
    none, CtxStatus.deadlineExceeded, deadlineWaitEnv, CtxStatus.deadlineExceeded,
    none, CtxStatus.deadlineExceeded, fun _ => none,
    fun _ => CtxStatus.deadlineExceeded, none⟩

/-- Two worker results with distinct keys, and their swap. -/
def twoResults : List WorkerResult :=
  [⟨"fedora", ⟨["fedora:39"], true⟩⟩, ⟨"centos", ⟨["centos:9"], true⟩⟩]

/-- The same two worker results in the other arrival order. -/
def twoResultsSwapped : List WorkerResult :=
  [⟨"centos", ⟨["centos:9"], true⟩⟩, ⟨"fedora", ⟨["fedora:39"], true⟩⟩]

/-! ## Helper lemmas -/

/-- A checkpoint whose observation does not trigger the gate did not
observe cancellation. -/
theorem ctx_not_canceled_of_gate_false (c : CtxStatus)
    (h : errorsIsCanceled c.err = false) : c ≠ CtxStatus.canceled := by
  cases c <;> simp_all [CtxStatus.err, errorsIsCanceled]

/-- `createVM` always performs exactly the keypair generation. -/
theorem createVM_fst (env : AttemptEnv) (a : Artifact) (i : String) :
    (createVM env a i).1 = [Event.generateKey] := by
  unfold createVM
  cases env.keyGenErr with
  | some e => rfl
  | none =>
    cases marshallPublicKey env.sshNewKeyErr env.marshalled with
    | none => rfl
    | some x => cases x <;> rfl

/-- A non-empty marshalled key is sliced successfully. -/
theorem marshallPublicKey_ok (s : String) (h : 0 < s.length) :
    ∃ t, marshallPublicKey none s = some (Except.ok t) := by
  refine ⟨String.mk (s.data.take ((s.length : Int) - 1).toNat), ?_⟩
  unfold marshallPublicKey goStringSliceTo
  rw [if_pos]
  · rfl
  · constructor <;> omega

/-- When keygen and marshalling succeed, `createVM` returns the VM data
built from the randomized name and the given image reference. -/
theorem createVM_ok (env : AttemptEnv) (a : Artifact) (i : String)
    (h1 : env.keyGenErr = none) (h2 : env.sshNewKeyErr = none)
    (h3 : 0 < env.marshalled.length) :
    createVM env a i =
      ([Event.generateKey], Except.ok ⟨randName a.name env.nameSuffix, i⟩) := by
  obtain ⟨t, ht⟩ := marshallPublicKey_ok env.marshalled h3
  unfold createVM
  rw [h1, h2, ht]

/-- All-pass run of the test loop. -/
theorem runTests_success (f : Nat → Option GoError) (g : Nat → CtxStatus)
    (tags : List String) :
    ∀ n i, (∀ j, j < n → f (i + j) = none ∧ g (i + j) = CtxStatus.live) →
    runTests f g tags n i =
      ⟨some ⟨tags, true⟩, none, (List.range' i n).map Event.runTest,
        List.replicate n CtxStatus.live⟩ := by
  intro n
  induction n with
  | zero => intro i _; rfl
  | succ n ih =>
    intro i h
    have h0 := h 0 (by omega)
    simp only [Nat.add_zero] at h0
    have hrec := ih (i + 1) (fun j hj => by
      have := h (j + 1) (by omega)
      constructor
      · have := this.1; rwa [show i + (j + 1) = i + 1 + j by omega] at this
      · have := this.2; rwa [show i + (j + 1) = i + 1 + j by omega] at this)
    unfold runTests
    rw [h0.1, h0.2]
    simp [hrec, CtxStatus.err, errorsIsCanceled, List.range', List.replicate_succ]

/-- All-pass run of the post-create stages. -/
theorem afterCreate_success (env : AttemptEnv) (a : Artifact)
    (tags : List String) (vmName : String) (timeout : Nat)
    (h2 : env.ctx2 = CtxStatus.live)
    (hwait : waitVMReady env.waitEnv timeout = none)
    (hget : env.getVMIErr = none) (h3 : env.ctx3 = CtxStatus.live)
    (htests : ∀ i, i < a.numTests →
      env.testOutcome i = none ∧ env.ctxTest i = CtxStatus.live) :
    afterCreate env a tags vmName timeout =
      ⟨some ⟨tags, true⟩, none,
        Event.getVMI vmName :: (List.range a.numTests).map Event.runTest,
        CtxStatus.live :: CtxStatus.live ::
          List.replicate a.numTests CtxStatus.live⟩ := by
  unfold afterCreate
  rw [h2, hwait, hget, h3]
  have hr := runTests_success env.testOutcome env.ctxTest tags a.numTests 0
    (fun j hj => by simpa using htests j hj)
  simp [hr, CtxStatus.err, errorsIsCanceled, List.range_eq_range']

/-- Full success run of the attempt: all tests pass and the returned
result carries the original tags with verified set. -/
theorem verifyArtifact_success (env : AttemptEnv) (a : Artifact)
    (r : ArtifactResult) (opts : VerifyOptions) (t0 : String) (ts : List String)
    (htags : r.tags = t0 :: ts) (h : allSuccessEnv env a opts.timeout) :
    verifyArtifact env a r opts =
      ⟨some ⟨r.tags, true⟩, none,
        Event.generateKey ::
          Event.createVM (randName a.name env.nameSuffix) (pathJoin opts.registry t0) ::
          Event.getVMI (randName a.name env.nameSuffix) ::
          ((List.range a.numTests).map Event.runTest ++
            [Event.delete (randName a.name env.nameSuffix) 0]),
        CtxStatus.live :: CtxStatus.live :: CtxStatus.live ::
          List.replicate a.numTests CtxStatus.live⟩ := by
  obtain ⟨hk, hs, hm, h1, hc, hct2, hw, hg, hct3, ht⟩ := h
  have hcv := createVM_ok env a (pathJoin opts.registry t0) hk hs hm
  have hac := afterCreate_success env a r.tags (randName a.name env.nameSuffix)
    opts.timeout hct2 hw hg hct3 ht
  rw [htags] at hac
  simp [verifyArtifact, htags, hcv, h1, hc, hac, CtxStatus.err, errorsIsCanceled]

/-- Branch equation: empty test list means immediate success. -/
theorem runTests_eq_zero (f : Nat → Option GoError) (g : Nat → CtxStatus)
    (tags : List String) (i : Nat) :
    runTests f g tags 0 i = ⟨some ⟨tags, true⟩, none, [], []⟩ := rfl

/-- Branch equation: a failing test returns its error at once. -/
theorem runTests_eq_fail (f : Nat → Option GoError) (g : Nat → CtxStatus)
    (tags : List String) (n i : Nat) (e : GoError) (hf : f i = some e) :
    runTests f g tags (n + 1) i = ⟨none, some e, [Event.runTest i], []⟩ := by
  unfold runTests
  rw [hf]

/-- Branch equation: a passing test followed by an observed cancellation. -/
theorem runTests_eq_gate (f : Nat → Option GoError) (g : Nat → CtxStatus)
    (tags : List String) (n i : Nat) (hf : f i = none)
    (hc : errorsIsCanceled (g i).err = true) :
    runTests f g tags (n + 1) i = ⟨none, none, [Event.runTest i], [g i]⟩ := by
  unfold runTests
  rw [hf, if_pos hc]

/-- Branch equation: a passing test with a passing checkpoint steps to the
next test. -/
theorem runTests_eq_step (f : Nat → Option GoError) (g : Nat → CtxStatus)
    (tags : List String) (n i : Nat) (hf : f i = none)
    (hc : errorsIsCanceled (g i).err = false) :
    runTests f g tags (n + 1) i =
      ⟨(runTests f g tags n (i + 1)).res, (runTests f g tags n (i + 1)).err,
        Event.runTest i :: (runTests f g tags n (i + 1)).events,
        g i :: (runTests f g tags n (i + 1)).gates⟩ := by
  simp [runTests, hf, hc]

/-- Branch equation: cancellation observed at the line-122 checkpoint. -/
theorem afterCreate_eq_ctx2 (env : AttemptEnv) (a : Artifact) (tags : List String)
    (vmName : String) (timeout : Nat) (h2 : errorsIsCanceled env.ctx2.err = true) :
    afterCreate env a tags vmName timeout = ⟨none, none, [], [env.ctx2]⟩ := by
  unfold afterCreate
  rw [if_pos h2]

/-- Branch equation: the wait failed and the line-128 checkpoint observed
cancellation. -/
theorem afterCreate_eq_waitCancel (env : AttemptEnv) (a : Artifact)
    (tags : List String) (vmName : String) (timeout : Nat) (e : GoError)
    (h2 : errorsIsCanceled env.ctx2.err = false)
    (hw : waitVMReady env.waitEnv timeout = some e)
    (hcw : errorsIsCanceled env.ctxAfterWait.err = true) :
    afterCreate env a tags vmName timeout =
      ⟨none, none, [], [env.ctx2, env.ctxAfterWait]⟩ := by
  simp [afterCreate, h2, hw, hcw]

/-- Branch equation: the wait failed with no cancellation observed. -/
theorem afterCreate_eq_waitErr (env : AttemptEnv) (a : Artifact)
    (tags : List String) (vmName : String) (timeout : Nat) (e : GoError)
    (h2 : errorsIsCanceled env.ctx2.err = false)
    (hw : waitVMReady env.waitEnv timeout = some e)
    (hcw : errorsIsCanceled env.ctxAfterWait.err = false) :
    afterCreate env a tags vmName timeout =
      ⟨none, some e, [], [env.ctx2, env.ctxAfterWait]⟩ := by
  simp [afterCreate, h2, hw, hcw]

/-- Branch equation: the VMI fetch failed. -/
theorem afterCreate_eq_getVMIErr (env : AttemptEnv) (a : Artifact)
    (tags : List String) (vmName : String) (timeout : Nat) (e : GoError)
    (h2 : errorsIsCanceled env.ctx2.err = false)
    (hw : waitVMReady env.waitEnv timeout = none)
    (hg : env.getVMIErr = some e) :
    afterCreate env a tags vmName timeout =
      ⟨none, some e, [Event.getVMI vmName], [env.ctx2]⟩ := by
  unfold afterCreate
  rw [if_neg (by simp [h2]), hw, hg]

/-- Branch equation: cancellation observed at the line-141 checkpoint. -/
theorem afterCreate_eq_ctx3 (env : AttemptEnv) (a : Artifact)
    (tags : List String) (vmName : String) (timeout : Nat)
    (h2 : errorsIsCanceled env.ctx2.err = false)
    (hw : waitVMReady env.waitEnv timeout = none)
    (hg : env.getVMIErr = none)
    (h3 : errorsIsCanceled env.ctx3.err = true) :
    afterCreate env a tags vmName timeout =
      ⟨none, none, [Event.getVMI vmName], [env.ctx2, env.ctx3]⟩ := by
  unfold afterCreate
  rw [if_neg (by simp [h2]), hw, hg, if_pos h3]

/-- Branch equation: all pre-test stages passed, the test loop runs. -/
theorem afterCreate_eq_tests (env : AttemptEnv) (a : Artifact)
    (tags : List String) (vmName : String) (timeout : Nat)
    (h2 : errorsIsCanceled env.ctx2.err = false)
    (hw : waitVMReady env.waitEnv timeout = none)
    (hg : env.getVMIErr = none)
    (h3 : errorsIsCanceled env.ctx3.err = false) :
    afterCreate env a tags vmName timeout =
      ⟨(runTests env.testOutcome env.ctxTest tags a.numTests 0).res,
        (runTests env.testOutcome env.ctxTest tags a.numTests 0).err,
        Event.getVMI vmName ::
          (runTests env.testOutcome env.ctxTest tags a.numTests 0).events,
        env.ctx2 :: env.ctx3 ::
          (runTests env.testOutcome env.ctxTest tags a.numTests 0).gates⟩ := by
  unfold afterCreate
  rw [if_neg (by simp [h2]), hw, hg, if_neg (by simp [h3])]

/-- Branch equation: no tags, immediate (nil, nil). -/
theorem verifyArtifact_eq_noTags (env : AttemptEnv) (a : Artifact)
    (r : ArtifactResult) (opts : VerifyOptions) (htags : r.tags = []) :
    verifyArtifact env a r opts = ⟨none, none, [], []⟩ := by
  simp [verifyArtifact, htags]

/-- Branch equation: spec construction (`createVM`) failed. -/
theorem verifyArtifact_eq_cvErr (env : AttemptEnv) (a : Artifact)
    (r : ArtifactResult) (opts : VerifyOptions) (t0 : String) (ts : List String)
    (evs : List Event) (e : GoError) (htags : r.tags = t0 :: ts)
    (hcv : createVM env a (pathJoin opts.registry t0) = (evs, Except.error e)) :
    verifyArtifact env a r opts = ⟨none, some e, evs, []⟩ := by
  simp [verifyArtifact, htags, hcv]

/-- Branch equation: cancellation observed at the line-105 checkpoint. -/
theorem verifyArtifact_eq_ctx1 (env : AttemptEnv) (a : Artifact)
    (r : ArtifactResult) (opts : VerifyOptions) (t0 : String) (ts : List String)
    (evs : List Event) (vm : VMSpec) (htags : r.tags = t0 :: ts)
    (hcv : createVM env a (pathJoin opts.registry t0) = (evs, Except.ok vm))
    (h1 : errorsIsCanceled env.ctx1.err = true) :
    verifyArtifact env a r opts = ⟨none, none, evs, [env.ctx1]⟩ := by
  simp [verifyArtifact, htags, hcv, h1]

/-- Branch equation: the cluster Create call failed. -/
theorem verifyArtifact_eq_createErr (env : AttemptEnv) (a : Artifact)
    (r : ArtifactResult) (opts : VerifyOptions) (t0 : String) (ts : List String)
    (evs : List Event) (vm : VMSpec) (e : GoError) (htags : r.tags = t0 :: ts)
    (hcv : createVM env a (pathJoin opts.registry t0) = (evs, Except.ok vm))
    (h1 : errorsIsCanceled env.ctx1.err = false) (hce : env.createErr = some e) :
    verifyArtifact env a r opts =
      ⟨none, some e, evs ++ [Event.createVM vm.name vm.imgRef], [env.ctx1]⟩ := by
  simp [verifyArtifact, htags, hcv, h1, hce]

/-- Branch equation: the Create succeeded; the post-create stages run and
the deferred delete is appended on every exit path. -/
theorem verifyArtifact_eq_main (env : AttemptEnv) (a : Artifact)
    (r : ArtifactResult) (opts : VerifyOptions) (t0 : String) (ts : List String)
    (evs : List Event) (vm : VMSpec) (htags : r.tags = t0 :: ts)
    (hcv : createVM env a (pathJoin opts.registry t0) = (evs, Except.ok vm))
    (h1 : errorsIsCanceled env.ctx1.err = false) (hce : env.createErr = none) :
    verifyArtifact env a r opts =
      ⟨(afterCreate env a r.tags vm.name opts.timeout).res,
        (afterCreate env a r.tags vm.name opts.timeout).err,
        evs ++ [Event.createVM vm.name vm.imgRef]
          ++ (afterCreate env a r.tags vm.name opts.timeout).events
          ++ [Event.delete vm.name 0],
        env.ctx1 :: (afterCreate env a r.tags vm.name opts.timeout).gates⟩ := by
  simp [verifyArtifact, htags, hcv, h1, hce]

/-- If the test loop's gate trace contains a cancellation observation, the
loop returned no result and no error. -/
theorem runTests_canceled_silent (f : Nat → Option GoError) (g : Nat → CtxStatus)
    (tags : List String) :
    ∀ n i, CtxStatus.canceled ∈ (runTests f g tags n i).gates →
      (runTests f g tags n i).res = none ∧ (runTests f g tags n i).err = none := by
  intro n
  induction n with
  | zero =>
    intro i h
    simp [runTests] at h
  | succ n ih =>
    intro i
    unfold runTests
    cases hf : f i with
    | some e =>
      intro h
      simp at h
    | none =>
      by_cases hc : errorsIsCanceled (g i).err = true
      · rw [if_pos hc]
        intro h
        exact ⟨rfl, rfl⟩
      · rw [if_neg hc]
        intro h
        have hne := ctx_not_canceled_of_gate_false (g i) (by simpa using hc)
        have h' : CtxStatus.canceled ∈
            g i :: (runTests f g tags n (i + 1)).gates := h
        have hm : CtxStatus.canceled ∈ (runTests f g tags n (i + 1)).gates := by
          rcases List.mem_cons.mp h' with h1 | h2
          · exact absurd h1.symm hne
          · exact h2
        exact ⟨(ih (i + 1) hm).1, (ih (i + 1) hm).2⟩

/-- If the post-create stages' gate trace contains a cancellation
observation, they returned no result and no error. -/
theorem afterCreate_canceled_silent (env : AttemptEnv) (a : Artifact)
    (tags : List String) (vmName : String) (timeout : Nat)
    (h : CtxStatus.canceled ∈ (afterCreate env a tags vmName timeout).gates) :
    (afterCreate env a tags vmName timeout).res = none ∧
      (afterCreate env a tags vmName timeout).err = none := by
  by_cases h2 : errorsIsCanceled env.ctx2.err = true
  · rw [afterCreate_eq_ctx2 env a tags vmName timeout h2]
    exact ⟨rfl, rfl⟩
  · have h2' : errorsIsCanceled env.ctx2.err = false := by simpa using h2
    have hne2 := ctx_not_canceled_of_gate_false env.ctx2 h2'
    cases hw : waitVMReady env.waitEnv timeout with
    | some e =>
      by_cases hcw : errorsIsCanceled env.ctxAfterWait.err = true
      · rw [afterCreate_eq_waitCancel env a tags vmName timeout e h2' hw hcw]
        exact ⟨rfl, rfl⟩
      · have hcw' : errorsIsCanceled env.ctxAfterWait.err = false := by simpa using hcw
        have hnew := ctx_not_canceled_of_gate_false env.ctxAfterWait hcw'
        rw [afterCreate_eq_waitErr env a tags vmName timeout e h2' hw hcw'] at h
        exfalso
        have h' : CtxStatus.canceled ∈ [env.ctx2, env.ctxAfterWait] := h
        rcases List.mem_cons.mp h' with h1 | h1
        · exact hne2 h1.symm
        · rcases List.mem_cons.mp h1 with h3 | h3
          · exact hnew h3.symm
          · simp at h3
    | none =>
      cases hg : env.getVMIErr with
      | some e =>
        rw [afterCreate_eq_getVMIErr env a tags vmName timeout e h2' hw hg] at h
        exfalso
        have h' : CtxStatus.canceled ∈ [env.ctx2] := h
        rcases List.mem_cons.mp h' with h1 | h1
        · exact hne2 h1.symm
        · simp at h1
      | none =>
        by_cases h3 : errorsIsCanceled env.ctx3.err = true
        · rw [afterCreate_eq_ctx3 env a tags vmName timeout h2' hw hg h3]
          exact ⟨rfl, rfl⟩
        · have h3' : errorsIsCanceled env.ctx3.err = false := by simpa using h3
          have hne3 := ctx_not_canceled_of_gate_false env.ctx3 h3'
          rw [afterCreate_eq_tests env a tags vmName timeout h2' hw hg h3'] at h ⊢
          have h' : CtxStatus.canceled ∈ env.ctx2 :: env.ctx3 ::
              (runTests env.testOutcome env.ctxTest tags a.numTests 0).gates := h
          have hm : CtxStatus.canceled ∈
              (runTests env.testOutcome env.ctxTest tags a.numTests 0).gates := by
            rcases List.mem_cons.mp h' with h1 | h1
            · exact absurd h1.symm hne2
            · rcases List.mem_cons.mp h1 with h4 | h4
              · exact absurd h4.symm hne3
              · exact h4
          have := runTests_canceled_silent env.testOutcome env.ctxTest tags
            a.numTests 0 hm
          exact ⟨this.1, this.2⟩

/-- Every event the test loop emits is a test execution. -/
theorem runTests_events_tests (f : Nat → Option GoError) (g : Nat → CtxStatus)
    (tags : List String) :
    ∀ n i, ∀ e ∈ (runTests f g tags n i).events, isTestEvent e = true := by
  intro n
  induction n with
  | zero =>
    intro i e he
    simp [runTests] at he
  | succ n ih =>
    intro i e
    unfold runTests
    cases hf : f i with
    | some e' =>
      intro he
      simp at he
      simp [he, isTestEvent]
    | none =>
      by_cases hc : errorsIsCanceled (g i).err = true
      · rw [if_pos hc]
        intro he
        simp at he
        simp [he, isTestEvent]
      · rw [if_neg hc]
        intro he
        have he' : e ∈ Event.runTest i :: (runTests f g tags n (i + 1)).events := he
        rcases List.mem_cons.mp he' with h1 | h1
        · simp [h1, isTestEvent]
        · exact ih (i + 1) e h1

/-- The post-create stages never emit a delete call themselves (the delete
is the deferred action appended by `verifyArtifact`). -/
theorem afterCreate_no_delete (env : AttemptEnv) (a : Artifact)
    (tags : List String) (vmName : String) (timeout : Nat) :
    ∀ e ∈ (afterCreate env a tags vmName timeout).events, isDeleteEvent e = false := by
  intro e
  by_cases h2 : errorsIsCanceled env.ctx2.err = true
  · rw [afterCreate_eq_ctx2 env a tags vmName timeout h2]
    intro he
    simp at he
  · have h2' : errorsIsCanceled env.ctx2.err = false := by simpa using h2
    cases hw : waitVMReady env.waitEnv timeout with
    | some e' =>
      by_cases hcw : errorsIsCanceled env.ctxAfterWait.err = true
      · rw [afterCreate_eq_waitCancel env a tags vmName timeout e' h2' hw hcw]
        intro he
        simp at he
      · have hcw' : errorsIsCanceled env.ctxAfterWait.err = false := by simpa using hcw
        rw [afterCreate_eq_waitErr env a tags vmName timeout e' h2' hw hcw']
        intro he
        simp at he
    | none =>
      cases hg : env.getVMIErr with
      | some e' =>
        rw [afterCreate_eq_getVMIErr env a tags vmName timeout e' h2' hw hg]
        intro he
        have he' : e ∈ [Event.getVMI vmName] := he
        rcases List.mem_cons.mp he' with h1 | h1
        · simp [h1, isDeleteEvent]
        · simp at h1
      | none =>
        by_cases h3 : errorsIsCanceled env.ctx3.err = true
        · rw [afterCreate_eq_ctx3 env a tags vmName timeout h2' hw hg h3]
          intro he
          have he' : e ∈ [Event.getVMI vmName] := he
          rcases List.mem_cons.mp he' with h1 | h1
          · simp [h1, isDeleteEvent]
          · simp at h1
        · have h3' : errorsIsCanceled env.ctx3.err = false := by simpa using h3
          rw [afterCreate_eq_tests env a tags vmName timeout h2' hw hg h3']
          intro he
          have he' : e ∈ Event.getVMI vmName ::
              (runTests env.testOutcome env.ctxTest tags a.numTests 0).events := he
          rcases List.mem_cons.mp he' with h1 | h1
          · simp [h1, isDeleteEvent]
          · have := runTests_events_tests env.testOutcome env.ctxTest tags
              a.numTests 0 e h1
            cases e <;> simp_all [isTestEvent, isDeleteEvent]

/-- One step of the poll loop: a not-ready poll followed by a live context
moves to the next second. -/
theorem waitAux_step (w : WaitEnv) (f i : Nat)
    (hg : w.get i = GetOutcome.ok false) (hc : (w.ctxAt (i + 1)).err = none) :
    waitVMReadyAux w (f + 1) i = waitVMReadyAux w f (i + 1) := by
  simp [waitVMReadyAux, hg, hc]

/-- A ready poll terminates the loop with success regardless of remaining
fuel (in particular the very first, immediate poll can succeed). -/
theorem waitAux_ready (w : WaitEnv) (f i : Nat)
    (h : w.get i = GetOutcome.ok true) : waitVMReadyAux w f i = none := by
  cases f <;> simp [waitVMReadyAux, h]

/-- A failed get terminates the loop with that error at once. -/
theorem waitAux_err (w : WaitEnv) (f i : Nat) (e : GoError)
    (h : w.get i = GetOutcome.err e) : waitVMReadyAux w f i = some e := by
  cases f <;> simp [waitVMReadyAux, h]

/-- Exhausted fuel with a not-ready poll is the timeout error. -/
theorem waitAux_timeout (w : WaitEnv) (i : Nat)
    (h : w.get i = GetOutcome.ok false) :
    waitVMReadyAux w 0 i = some GoError.waitTimeout := by
  simp [waitVMReadyAux, h]

/-- A done context observed between polls terminates with its error. -/
theorem waitAux_ctx (w : WaitEnv) (f i : Nat) (e : GoError)
    (hg : w.get i = GetOutcome.ok false) (hc : (w.ctxAt (i + 1)).err = some e) :
    waitVMReadyAux w (f + 1) i = some e := by
  simp [waitVMReadyAux, hg, hc]

/-- Walking the poll loop over `k` uneventful seconds. -/
theorem waitAux_walk (w : WaitEnv) :
    ∀ k f i, k ≤ f →
      (∀ j, i ≤ j → j < i + k → w.get j = GetOutcome.ok false) →
      (∀ j, i < j → j ≤ i + k → (w.ctxAt j).err = none) →
      waitVMReadyAux w f i = waitVMReadyAux w (f - k) (i + k) := by
  intro k
  induction k with
  | zero =>
    intro f i _ _ _
    simp
  | succ k ih =>
    intro f i hkf hget hctx
    obtain ⟨f', rfl⟩ : ∃ f', f = f' + 1 := ⟨f - 1, by omega⟩
    have hstep := waitAux_step w f' i (hget i le_rfl (by omega))
      (hctx (i + 1) (by omega) (by omega))
    rw [hstep]
    have := ih f' (i + 1) (by omega)
      (fun j h1 h2 => hget j (by omega) (by omega))
      (fun j h1 h2 => hctx j (by omega) (by omega))
    rw [this, show f' - k = f' + 1 - (k + 1) by omega,
      show i + 1 + k = i + (k + 1) by omega]

/-- Successful string slice. -/
theorem goStringSliceTo_ok (s : String) (j : Int) (h0 : 0 ≤ j)
    (h1 : j ≤ (s.length : Int)) :
    goStringSliceTo s j = some (String.mk (s.data.take j.toNat)) := by
  unfold goStringSliceTo
  rw [if_pos ⟨h0, h1⟩]

/-- The ledger fold ignores keys that received no result. -/
theorem mergeResults_not_received (k : String) :
    ∀ (rs : List WorkerResult) (m : Ledger), (∀ wr ∈ rs, wr.key ≠ k) →
      mergeResults m rs k = m k := by
  intro rs
  induction rs with
  | nil =>
    intro m _
    rfl
  | cons r rs ih =>
    intro m h
    have hr : r.key ≠ k := h r (List.mem_cons_self r rs)
    have hstep : mergeResults m (r :: rs) k =
        mergeResults (ledgerInsert m r.key r.value) rs k := rfl
    rw [hstep, ih _ (fun wr hw => h wr (List.mem_cons_of_mem r hw))]
    unfold ledgerInsert
    rw [if_neg (fun hh => hr hh.symm)]

/-! ## Claim theorems -/

/-- C8: for every artifact whose prior result carries zero image tags, the
verification state machine returns no result and no error, and performs no
external call at all — no credential provisioning and no VM creation. -/
theorem claim_C8_zero_tags (env : AttemptEnv) (a : Artifact) (r : ArtifactResult)
    (opts : VerifyOptions) (h : r.tags = []) :
    verifyArtifact env a r opts = ⟨none, none, [], []⟩ :=
  verifyArtifact_eq_noTags env a r opts h

/-- C8 witness: a concrete zero-tag attempt is silent and eventless. -/
theorem claim_C8_zero_tags_witness :
    verifyArtifact successEnv fedoraArtifact ⟨[], false⟩
      (defaultVerifyOptions "registry.example") = ⟨none, none, [], []⟩ :=
  claim_C8_zero_tags successEnv fedoraArtifact ⟨[], false⟩
    (defaultVerifyOptions "registry.example") rfl

/-- C9: the public-key marshalling removes exactly the final character of
the marshalled authorized-key form — on a form ending in the newline that
`ssh.MarshalAuthorizedKey` appends, this strips precisely that trailing
line terminator; the removal presupposes a non-empty marshalled form, the
empty string hitting the slice-bounds panic (modelled as `none`). -/
theorem claim_C9_marshall_strips_newline :
    (∀ t : String, marshallPublicKey none (t.push (Char.ofNat 10)) =
      some (Except.ok t)) ∧
    marshallPublicKey none "" = none := by
  constructor
  · intro t
    cases t with
    | mk data =>
      show (goStringSliceTo (String.mk (data ++ [Char.ofNat 10]))
        (((String.mk (data ++ [Char.ofNat 10])).length : Int) - 1)).map Except.ok =
          some (Except.ok (String.mk data))
      have hlen : (String.mk (data ++ [Char.ofNat 10])).length = data.length + 1 := by
        simp [String.length]
      rw [goStringSliceTo_ok _ _ (by rw [hlen]; omega) (by rw [hlen]; omega)]
      have htn : ((((String.mk (data ++ [Char.ofNat 10])).length : Nat) : Int) - 1).toNat
          = data.length := by
        rw [hlen]
        omega
      rw [htn]
      have hdata : (String.mk (data ++ [Char.ofNat 10])).data = data ++ [Char.ofNat 10] := rfl
      rw [hdata, List.take_left]
      rfl
  · show (goStringSliceTo "" (((String.length "") : Int) - 1)).map Except.ok = none
    have h0 : String.length "" = 0 := rfl
    unfold goStringSliceTo
    rw [if_neg]
    · rfl
    · rintro ⟨h1, -⟩
      rw [h0] at h1
      omega

/-- C9 witness: concrete marshalled forms. -/
theorem claim_C9_marshall_strips_newline_witness :
    marshallPublicKey none ("ssh-ed25519 AAAA".push (Char.ofNat 10)) =
      some (Except.ok "ssh-ed25519 AAAA") ∧
    marshallPublicKey none "" = none :=
  ⟨claim_C9_marshall_strips_newline.1 "ssh-ed25519 AAAA",
    claim_C9_marshall_strips_newline.2⟩

/-- If the attempt's gate trace contains a cancellation observation, the
attempt returned no result and no error. -/
theorem verifyArtifact_canceled_silent (env : AttemptEnv) (a : Artifact)
    (r : ArtifactResult) (opts : VerifyOptions)
    (h : CtxStatus.canceled ∈ (verifyArtifact env a r opts).gates) :
    (verifyArtifact env a r opts).res = none ∧
      (verifyArtifact env a r opts).err = none := by
  cases htags : r.tags with
  | nil =>
    rw [verifyArtifact_eq_noTags env a r opts htags]
    exact ⟨rfl, rfl⟩
  | cons t0 ts =>
    rcases hcv : createVM env a (pathJoin opts.registry t0) with ⟨evs, ex⟩
    cases ex with
    | error e =>
      rw [verifyArtifact_eq_cvErr env a r opts t0 ts evs e htags hcv] at h
      simp at h
    | ok vm =>
      by_cases h1 : errorsIsCanceled env.ctx1.err = true
      · rw [verifyArtifact_eq_ctx1 env a r opts t0 ts evs vm htags hcv h1]
        exact ⟨rfl, rfl⟩
      · have h1' : errorsIsCanceled env.ctx1.err = false := by simpa using h1
        have hne1 := ctx_not_canceled_of_gate_false env.ctx1 h1'
        cases hce : env.createErr with
        | some e =>
          rw [verifyArtifact_eq_createErr env a r opts t0 ts evs vm e htags hcv
            h1' hce] at h
          have h' : CtxStatus.canceled ∈ [env.ctx1] := h
          rcases List.mem_cons.mp h' with hx | hx
          · exact absurd hx.symm hne1
          · simp at hx
        | none =>
          rw [verifyArtifact_eq_main env a r opts t0 ts evs vm htags hcv h1' hce]
            at h ⊢
          have h' : CtxStatus.canceled ∈ env.ctx1 ::
              (afterCreate env a r.tags vm.name opts.timeout).gates := h
          have hm : CtxStatus.canceled ∈
              (afterCreate env a r.tags vm.name opts.timeout).gates := by
            rcases List.mem_cons.mp h' with hx | hx
            · exact absurd hx.symm hne1
            · exact hx
          have hs := afterCreate_canceled_silent env a r.tags vm.name opts.timeout hm
          exact ⟨hs.1, hs.2⟩

/-- C2: once the cluster Create call has been issued and succeeded, the
attempt's trace contains exactly one delete call, for the created VM's
name with grace period zero; the delete oracle's outcome changes neither
the returned result nor the returned error (the deferred closure assigns
only a dead local), and the delete-failure log line appears exactly when
the delete call failed. -/
theorem claim_C2_delete_exactly_once (env : AttemptEnv) (a : Artifact)
    (r : ArtifactResult) (opts : VerifyOptions)
    (hcr : createReached env r) (hce : env.createErr = none) :
    (verifyArtifact env a r opts).events.filter isDeleteEvent =
        [Event.delete (randName a.name env.nameSuffix) 0] ∧
    (∀ d, verifyArtifact (setDeleteErr env d) a r opts =
        verifyArtifact env a r opts) ∧
    attemptLogsDeleteFailure env a r opts = env.deleteErr.isSome := by
  obtain ⟨htne, hk, hs, hm, h1⟩ := hcr
  obtain ⟨t0, ts, htags⟩ := List.exists_cons_of_ne_nil htne
  have h1' : errorsIsCanceled env.ctx1.err = false := by simpa using h1
  have hcv := createVM_ok env a (pathJoin opts.registry t0) hk hs hm
  have hmain := verifyArtifact_eq_main env a r opts t0 ts [Event.generateKey]
    ⟨randName a.name env.nameSuffix, pathJoin opts.registry t0⟩ htags hcv h1' hce
  have hfilter : (verifyArtifact env a r opts).events.filter isDeleteEvent =
      [Event.delete (randName a.name env.nameSuffix) 0] := by
    rw [hmain]
    have hnil : (afterCreate env a r.tags (randName a.name env.nameSuffix)
        opts.timeout).events.filter isDeleteEvent = [] := by
      rw [List.filter_eq_nil_iff]
      intro e he
      simp [afterCreate_no_delete env a r.tags (randName a.name env.nameSuffix)
        opts.timeout e he]
    simp [List.filter_append, hnil, isDeleteEvent]
  refine ⟨hfilter, fun d => rfl, ?_⟩
  have hmem : Event.delete (randName a.name env.nameSuffix) 0 ∈
      (verifyArtifact env a r opts).events := by
    apply List.mem_of_mem_filter (p := isDeleteEvent)
    rw [hfilter]
    exact List.mem_singleton_self _
  have hany : (verifyArtifact env a r opts).events.any isDeleteEvent = true :=
    List.any_eq_true.mpr ⟨Event.delete (randName a.name env.nameSuffix) 0, hmem,
      by simp [isDeleteEvent]⟩
  unfold attemptLogsDeleteFailure
  rw [hany, Bool.true_and]

/-- C2 witness: a concrete successful attempt deletes its VM exactly once
with grace period zero, independently of the delete oracle. -/
theorem claim_C2_delete_exactly_once_witness :
    (verifyArtifact successEnv fedoraArtifact ⟨["fedora:39"], false⟩
        (defaultVerifyOptions "registry.example")).events.filter isDeleteEvent =
      [Event.delete (randName fedoraArtifact.name successEnv.nameSuffix) 0] ∧
    (∀ d, verifyArtifact (setDeleteErr successEnv d) fedoraArtifact
        ⟨["fedora:39"], false⟩ (defaultVerifyOptions "registry.example") =
      verifyArtifact successEnv fedoraArtifact ⟨["fedora:39"], false⟩
        (defaultVerifyOptions "registry.example")) ∧
    attemptLogsDeleteFailure successEnv fedoraArtifact ⟨["fedora:39"], false⟩
        (defaultVerifyOptions "registry.example") = successEnv.deleteErr.isSome :=
  claim_C2_delete_exactly_once successEnv fedoraArtifact ⟨["fedora:39"], false⟩
    (defaultVerifyOptions "registry.example")
    ⟨by simp, rfl, rfl, by decide, by decide⟩ rfl

/-- C3: if the shared cancellation signal is observed at any cancellation
checkpoint the attempt reaches, the attempt returns (nil result, nil
error); consequently the worker callback emits no result for the artifact,
and the drain loop leaves the ledger entry of any key that received no
result exactly as it was. -/
theorem claim_C3_cancellation_silent (env : AttemptEnv) (a : Artifact)
    (r : ArtifactResult) (opts : VerifyOptions)
    (h : CtxStatus.canceled ∈ (verifyArtifact env a r opts).gates) :
    (verifyArtifact env a r opts).res = none ∧
    (verifyArtifact env a r opts).err = none ∧
    (∀ m : Ledger, m a.describe = some r →
      (workerCallback m env opts a).sent = none) ∧
    (∀ (m : Ledger) (rs : List WorkerResult),
      (∀ wr ∈ rs, wr.key ≠ a.describe) →
      mergeResults m rs a.describe = m a.describe) := by
  have hsil := verifyArtifact_canceled_silent env a r opts h
  refine ⟨hsil.1, hsil.2, ?_, ?_⟩
  · intro m hm
    cases hv : r.verified with
    | false => simp [workerCallback, hm, hv, hsil.1]
    | true => simp [workerCallback, hm, hv]
  · intro m rs hrs
    exact mergeResults_not_received a.describe rs m hrs

/-- C3 witness: with cancellation observed at the first checkpoint, the
concrete attempt is silent, sends nothing, and the merge leaves the prior
fedora entry unchanged. -/
theorem claim_C3_cancellation_silent_witness :
    (verifyArtifact canceledEnv fedoraArtifact ⟨["fedora:39"], false⟩
        (defaultVerifyOptions "registry.example")).res = none ∧
    (verifyArtifact canceledEnv fedoraArtifact ⟨["fedora:39"], false⟩
        (defaultVerifyOptions "registry.example")).err = none ∧
    (workerCallback fedoraLedger canceledEnv
        (defaultVerifyOptions "registry.example") fedoraArtifact).sent = none ∧
    mergeResults fedoraLedger [] fedoraArtifact.describe =
      fedoraLedger fedoraArtifact.describe := by
  have h := claim_C3_cancellation_silent canceledEnv fedoraArtifact
    ⟨["fedora:39"], false⟩ (defaultVerifyOptions "registry.example") (by decide)
  exact ⟨h.1, h.2.1, h.2.2.1 fedoraLedger (by decide),
    h.2.2.2 fedoraLedger [] (by simp)⟩

/-- First-failure run of the test loop: tests before `k` pass (with live
checkpoints), test `k` fails; the loop stops there, returning that error,
having executed exactly tests `i .. i+k` in order. -/
theorem runTests_first_fail (f : Nat → Option GoError) (g : Nat → CtxStatus)
    (tags : List String) :
    ∀ k n i e, k < n →
      (∀ j, j < k → f (i + j) = none ∧ errorsIsCanceled (g (i + j)).err = false) →
      f (i + k) = some e →
      runTests f g tags n i =
        ⟨none, some e, (List.range' i (k + 1)).map Event.runTest,
          (List.range' i k).map g⟩ := by
  intro k
  induction k with
  | zero =>
    intro n i e hkn _ hf
    obtain ⟨n', rfl⟩ : ∃ n', n = n' + 1 := ⟨n - 1, by omega⟩
    simp only [Nat.add_zero] at hf
    rw [runTests_eq_fail f g tags n' i e hf]
    simp [List.range']
  | succ k ih =>
    intro n i e hkn hpass hf
    obtain ⟨n', rfl⟩ : ∃ n', n = n' + 1 := ⟨n - 1, by omega⟩
    have h0 := hpass 0 (by omega)
    simp only [Nat.add_zero] at h0
    rw [runTests_eq_step f g tags n' i h0.1 h0.2]
    have hrec := ih n' (i + 1) e (by omega)
      (fun j hj => by
        have := hpass (j + 1) (by omega)
        rwa [show i + (j + 1) = i + 1 + j by omega] at this)
      (by rwa [show i + (k + 1) = i + 1 + k by omega] at hf)
    rw [hrec]
    simp [List.range']

/-- Filtering a pure test-event list for test events is the identity. -/
theorem filter_isTest_map_runTest (l : List Nat) :
    (l.map Event.runTest).filter isTestEvent = l.map Event.runTest := by
  rw [List.filter_eq_self]
  intro e he
  obtain ⟨j, -, rfl⟩ := List.mem_map.mp he
  rfl

/-- C4: once the test loop is reached, the artifact's test functions run
sequentially in declared order: if the first `k` tests pass and test `k`
fails with error `e`, the attempt returns exactly `e` with no result and
the trace shows exactly tests `0..k` executed in order (no later test is
invoked); if all tests pass, the trace shows all tests executed in order
and the attempt returns no error. -/
theorem claim_C4_tests_sequential (env : AttemptEnv) (a : Artifact)
    (r : ArtifactResult) (opts : VerifyOptions)
    (hr : reachesTests env r opts.timeout) :
    (∀ k e, k < a.numTests →
      (∀ j, j < k → env.testOutcome j = none ∧
        errorsIsCanceled (env.ctxTest j).err = false) →
      env.testOutcome k = some e →
      (verifyArtifact env a r opts).err = some e ∧
      (verifyArtifact env a r opts).res = none ∧
      (verifyArtifact env a r opts).events.filter isTestEvent =
        (List.range (k + 1)).map Event.runTest) ∧
    ((∀ j, j < a.numTests → env.testOutcome j = none ∧
        env.ctxTest j = CtxStatus.live) →
      (verifyArtifact env a r opts).err = none ∧
      (verifyArtifact env a r opts).events.filter isTestEvent =
        (List.range a.numTests).map Event.runTest) := by
  obtain ⟨⟨htne, hk, hs, hm, h1⟩, hce, h2, hw, hg, h3⟩ := hr
  obtain ⟨t0, ts, htags⟩ := List.exists_cons_of_ne_nil htne
  have h1' : errorsIsCanceled env.ctx1.err = false := by simpa using h1
  have h2' : errorsIsCanceled env.ctx2.err = false := by simpa using h2
  have h3' : errorsIsCanceled env.ctx3.err = false := by simpa using h3
  have hcv := createVM_ok env a (pathJoin opts.registry t0) hk hs hm
  have hmain := verifyArtifact_eq_main env a r opts t0 ts [Event.generateKey]
    ⟨randName a.name env.nameSuffix, pathJoin opts.registry t0⟩ htags hcv h1' hce
  have hac := afterCreate_eq_tests env a r.tags (randName a.name env.nameSuffix)
    opts.timeout h2' hw hg h3'
  constructor
  · intro k e hkn hpass hf
    have hrt := runTests_first_fail env.testOutcome env.ctxTest r.tags k
      a.numTests 0 e hkn (fun j hj => by simpa using hpass j hj)
      (by simpa using hf)
    rw [hmain, hac, hrt]
    refine ⟨rfl, rfl, ?_⟩
    simp [List.filter_append, isTestEvent, filter_isTest_map_runTest,
      List.range_eq_range']
  · intro hall
    have hrt := runTests_success env.testOutcome env.ctxTest r.tags a.numTests 0
      (fun j hj => by simpa using hall j hj)
    rw [hmain, hac, hrt]
    refine ⟨rfl, ?_⟩
    simp [List.filter_append, isTestEvent, filter_isTest_map_runTest,
      List.range_eq_range']

/-- C4 witness: with the second of two tests failing, the concrete attempt
returns that test's error having run exactly tests 0 and 1; with all tests
passing, both tests run in order and no error is returned. -/
theorem claim_C4_tests_sequential_witness :
    ((verifyArtifact secondTestFailEnv fedoraArtifact ⟨["fedora:39"], false⟩
        (defaultVerifyOptions "registry.example")).err =
      some (GoError.msg "test failed") ∧
     (verifyArtifact secondTestFailEnv fedoraArtifact ⟨["fedora:39"], false⟩
        (defaultVerifyOptions "registry.example")).res = none ∧
     (verifyArtifact secondTestFailEnv fedoraArtifact ⟨["fedora:39"], false⟩
        (defaultVerifyOptions "registry.example")).events.filter isTestEvent =
       (List.range (1 + 1)).map Event.runTest) ∧
    ((verifyArtifact successEnv fedoraArtifact ⟨["fedora:39"], false⟩
        (defaultVerifyOptions "registry.example")).err = none ∧
     (verifyArtifact successEnv fedoraArtifact ⟨["fedora:39"], false⟩
        (defaultVerifyOptions "registry.example")).events.filter isTestEvent =
       (List.range fedoraArtifact.numTests).map Event.runTest) := by
  have hA := claim_C4_tests_sequential secondTestFailEnv fedoraArtifact
    ⟨["fedora:39"], false⟩ (defaultVerifyOptions "registry.example")
    ⟨⟨by simp, rfl, rfl, by decide, by decide⟩, rfl, by decide, by decide, rfl,
      by decide⟩
  have hB := claim_C4_tests_sequential successEnv fedoraArtifact
    ⟨["fedora:39"], false⟩ (defaultVerifyOptions "registry.example")
    ⟨⟨by simp, rfl, rfl, by decide, by decide⟩, rfl, by decide, by decide, rfl,
      by decide⟩
  exact ⟨hA.1 1 (GoError.msg "test failed") (by decide) (by decide) (by decide),
    hB.2 (by decide)⟩

/-- The post-create stages never issue a Create call themselves. -/
theorem afterCreate_no_create (env : AttemptEnv) (a : Artifact)
    (tags : List String) (vmName : String) (timeout : Nat) :
    ∀ e ∈ (afterCreate env a tags vmName timeout).events, isCreateEvent e = false := by
  intro e
  by_cases h2 : errorsIsCanceled env.ctx2.err = true
  · rw [afterCreate_eq_ctx2 env a tags vmName timeout h2]
    intro he
    simp at he
  · have h2' : errorsIsCanceled env.ctx2.err = false := by simpa using h2
    cases hw : waitVMReady env.waitEnv timeout with
    | some e' =>
      by_cases hcw : errorsIsCanceled env.ctxAfterWait.err = true
      · rw [afterCreate_eq_waitCancel env a tags vmName timeout e' h2' hw hcw]
        intro he
        simp at he
      · have hcw' : errorsIsCanceled env.ctxAfterWait.err = false := by simpa using hcw
        rw [afterCreate_eq_waitErr env a tags vmName timeout e' h2' hw hcw']
        intro he
        simp at he
    | none =>
      cases hg : env.getVMIErr with
      | some e' =>
        rw [afterCreate_eq_getVMIErr env a tags vmName timeout e' h2' hw hg]
        intro he
        have he' : e ∈ [Event.getVMI vmName] := he
        rcases List.mem_cons.mp he' with h1 | h1
        · simp [h1, isCreateEvent]
        · simp at h1
      | none =>
        by_cases h3 : errorsIsCanceled env.ctx3.err = true
        · rw [afterCreate_eq_ctx3 env a tags vmName timeout h2' hw hg h3]
          intro he
          have he' : e ∈ [Event.getVMI vmName] := he
          rcases List.mem_cons.mp he' with h1 | h1
          · simp [h1, isCreateEvent]
          · simp at h1
        · have h3' : errorsIsCanceled env.ctx3.err = false := by simpa using h3
          rw [afterCreate_eq_tests env a tags vmName timeout h2' hw hg h3']
          intro he
          have he' : e ∈ Event.getVMI vmName ::
              (runTests env.testOutcome env.ctxTest tags a.numTests 0).events := he
          rcases List.mem_cons.mp he' with h1 | h1
          · simp [h1, isCreateEvent]
          · have := runTests_events_tests env.testOutcome env.ctxTest tags
              a.numTests 0 e h1
            cases e <;> simp_all [isTestEvent, isCreateEvent]

/-- A result produced by the test loop carries the given tags, verified. -/
theorem runTests_res_some (f : Nat → Option GoError) (g : Nat → CtxStatus)
    (tags : List String) :
    ∀ n i v, (runTests f g tags n i).res = some v → v = ⟨tags, true⟩ := by
  intro n
  induction n with
  | zero =>
    intro i v h
    rw [runTests_eq_zero] at h
    exact (Option.some.inj h).symm
  | succ n ih =>
    intro i v h
    cases hf : f i with
    | some e =>
      rw [runTests_eq_fail f g tags n i e hf] at h
      simp at h
    | none =>
      by_cases hc : errorsIsCanceled (g i).err = true
      · rw [runTests_eq_gate f g tags n i hf hc] at h
        simp at h
      · have hc' : errorsIsCanceled (g i).err = false := by simpa using hc
        rw [runTests_eq_step f g tags n i hf hc'] at h
        exact ih (i + 1) v h

/-- A result produced by the post-create stages carries the given tags. -/
theorem afterCreate_res_some (env : AttemptEnv) (a : Artifact)
    (tags : List String) (vmName : String) (timeout : Nat) (v : ArtifactResult)
    (h : (afterCreate env a tags vmName timeout).res = some v) :
    v = ⟨tags, true⟩ := by
  by_cases h2 : errorsIsCanceled env.ctx2.err = true
  · rw [afterCreate_eq_ctx2 env a tags vmName timeout h2] at h
    simp at h
  · have h2' : errorsIsCanceled env.ctx2.err = false := by simpa using h2
    cases hw : waitVMReady env.waitEnv timeout with
    | some e' =>
      by_cases hcw : errorsIsCanceled env.ctxAfterWait.err = true
      · rw [afterCreate_eq_waitCancel env a tags vmName timeout e' h2' hw hcw] at h
        simp at h
      · have hcw' : errorsIsCanceled env.ctxAfterWait.err = false := by simpa using hcw
        rw [afterCreate_eq_waitErr env a tags vmName timeout e' h2' hw hcw'] at h
        simp at h
    | none =>
      cases hg : env.getVMIErr with
      | some e' =>
        rw [afterCreate_eq_getVMIErr env a tags vmName timeout e' h2' hw hg] at h
        simp at h
      | none =>
        by_cases h3 : errorsIsCanceled env.ctx3.err = true
        · rw [afterCreate_eq_ctx3 env a tags vmName timeout h2' hw hg h3] at h
          simp at h
        · have h3' : errorsIsCanceled env.ctx3.err = false := by simpa using h3
          rw [afterCreate_eq_tests env a tags vmName timeout h2' hw hg h3'] at h
          exact runTests_res_some env.testOutcome env.ctxTest tags a.numTests 0 v h

/-- A result returned by the attempt carries the prior entry's tags with
the verified flag set. -/
theorem verifyArtifact_res_some (env : AttemptEnv) (a : Artifact)
    (r : ArtifactResult) (opts : VerifyOptions) (v : ArtifactResult)
    (h : (verifyArtifact env a r opts).res = some v) : v = ⟨r.tags, true⟩ := by
  cases htags : r.tags with
  | nil =>
    rw [verifyArtifact_eq_noTags env a r opts htags] at h
    simp at h
  | cons t0 ts =>
    rcases hcv : createVM env a (pathJoin opts.registry t0) with ⟨evs, ex⟩
    cases ex with
    | error e =>
      rw [verifyArtifact_eq_cvErr env a r opts t0 ts evs e htags hcv] at h
      simp at h
    | ok vm =>
      by_cases h1 : errorsIsCanceled env.ctx1.err = true
      · rw [verifyArtifact_eq_ctx1 env a r opts t0 ts evs vm htags hcv h1] at h
        simp at h
      · have h1' : errorsIsCanceled env.ctx1.err = false := by simpa using h1
        cases hce : env.createErr with
        | some e =>
          rw [verifyArtifact_eq_createErr env a r opts t0 ts evs vm e htags hcv
            h1' hce] at h
          simp at h
        | none =>
          rw [verifyArtifact_eq_main env a r opts t0 ts evs vm htags hcv h1' hce] at h
          have hres := afterCreate_res_some env a r.tags vm.name opts.timeout v h
          rw [htags] at hres
          exact hres

/-- C6: the attempt builds its image reference from the first tag only —
the trace contains exactly one Create call, whose image reference is the
registry joined with the head tag `t0` and is independent of the remaining
tags `ts` — yet a returned success result carries the entire original tag
set with verified true.  The head indexing is in bounds: this branch only
exists under `r.tags = t0 :: ts`, the zero-tag case having returned
earlier. -/
theorem claim_C6_first_tag_only (env : AttemptEnv) (a : Artifact)
    (r : ArtifactResult) (opts : VerifyOptions) (t0 : String) (ts : List String)
    (htags : r.tags = t0 :: ts) (hcr : createReached env r) :
    (verifyArtifact env a r opts).events.filter isCreateEvent =
      [Event.createVM (randName a.name env.nameSuffix)
        (pathJoin opts.registry t0)] ∧
    (∀ v, (verifyArtifact env a r opts).res = some v →
      v.tags = t0 :: ts ∧ v.verified = true) := by
  obtain ⟨-, hk, hs, hm, h1⟩ := hcr
  have h1' : errorsIsCanceled env.ctx1.err = false := by simpa using h1
  have hcv := createVM_ok env a (pathJoin opts.registry t0) hk hs hm
  constructor
  · cases hce : env.createErr with
    | some e =>
      rw [verifyArtifact_eq_createErr env a r opts t0 ts [Event.generateKey]
        ⟨randName a.name env.nameSuffix, pathJoin opts.registry t0⟩ e htags hcv
        h1' hce]
      simp [isCreateEvent]
    | none =>
      rw [verifyArtifact_eq_main env a r opts t0 ts [Event.generateKey]
        ⟨randName a.name env.nameSuffix, pathJoin opts.registry t0⟩ htags hcv
        h1' hce]
      have hnil : (afterCreate env a r.tags (randName a.name env.nameSuffix)
          opts.timeout).events.filter isCreateEvent = [] := by
        rw [List.filter_eq_nil_iff]
        intro e he
        simp [afterCreate_no_create env a r.tags (randName a.name env.nameSuffix)
          opts.timeout e he]
      simp [List.filter_append, hnil, isCreateEvent]
  · intro v hv
    have hvv := verifyArtifact_res_some env a r opts v hv
    rw [hvv]
    exact ⟨htags, rfl⟩

/-- C6 witness: the concrete successful attempt creates exactly one VM,
booting the image built from the single tag, and returns the full tag set
verified. -/
theorem claim_C6_first_tag_only_witness :
    (verifyArtifact successEnv fedoraArtifact ⟨["fedora:39"], false⟩
        (defaultVerifyOptions "registry.example")).events.filter isCreateEvent =
      [Event.createVM (randName fedoraArtifact.name successEnv.nameSuffix)
        (pathJoin (defaultVerifyOptions "registry.example").registry
          "fedora:39")] ∧
    ((⟨["fedora:39"], true⟩ : ArtifactResult).tags = "fedora:39" :: [] ∧
      (⟨["fedora:39"], true⟩ : ArtifactResult).verified = true) := by
  have h := claim_C6_first_tag_only successEnv fedoraArtifact
    ⟨["fedora:39"], false⟩ (defaultVerifyOptions "registry.example")
    "fedora:39" [] rfl ⟨by simp, rfl, rfl, by decide, by decide⟩
  exact ⟨h.1, h.2 ⟨["fedora:39"], true⟩ (by decide)⟩

/-- C7: the readiness waiter polls at a fixed one-second interval with the
first poll immediate (a ready or failing very first get decides the result
no matter the timeout or the context), and terminates with success when a
poll reports ready, with the fetch error as soon as a single get fails,
with the timeout error when the caller-supplied number of seconds elapses
with no poll ready, and with the context's error when the surrounding
context ends between polls. -/
theorem claim_C7_readiness_waiter (w : WaitEnv) (timeout : Nat) :
    waitInterval = 1 ∧
    (w.get 0 = GetOutcome.ok true → waitVMReady w timeout = none) ∧
    (∀ e, w.get 0 = GetOutcome.err e → waitVMReady w timeout = some e) ∧
    (∀ i, i ≤ timeout →
      (∀ j, j < i → w.get j = GetOutcome.ok false) →
      (∀ j, j < i → (w.ctxAt (j + 1)).err = none) →
      ((w.get i = GetOutcome.ok true → waitVMReady w timeout = none) ∧
       (∀ e, w.get i = GetOutcome.err e → waitVMReady w timeout = some e))) ∧
    ((∀ j, j ≤ timeout → w.get j = GetOutcome.ok false) →
     (∀ j, j < timeout → (w.ctxAt (j + 1)).err = none) →
     waitVMReady w timeout = some GoError.waitTimeout) ∧
    (∀ k e, k < timeout →
      (∀ j, j ≤ k → w.get j = GetOutcome.ok false) →
      (∀ j, j < k → (w.ctxAt (j + 1)).err = none) →
      (w.ctxAt (k + 1)).err = some e →
      waitVMReady w timeout = some e) := by
  have hwv : waitVMReady w timeout = waitVMReadyAux w timeout 0 := by
    unfold waitVMReady waitInterval
    rw [Nat.div_one]
  refine ⟨rfl, ?_, ?_, ?_, ?_, ?_⟩
  · intro hg
    rw [hwv]
    exact waitAux_ready w timeout 0 hg
  · intro e hg
    rw [hwv]
    exact waitAux_err w timeout 0 e hg
  · intro i hi hpolls hctx
    have hwalk := waitAux_walk w i timeout 0 hi
      (fun j _ hj2 => hpolls j (by omega))
      (fun j hj1 hj2 => by
        have := hctx (j - 1) (by omega)
        rwa [show j - 1 + 1 = j by omega] at this)
    simp only [Nat.zero_add] at hwalk
    constructor
    · intro hg
      rw [hwv, hwalk]
      exact waitAux_ready w (timeout - i) i hg
    · intro e hg
      rw [hwv, hwalk]
      exact waitAux_err w (timeout - i) i e hg
  · intro hget hctx
    have hwalk := waitAux_walk w timeout timeout 0 le_rfl
      (fun j _ hj2 => hget j (by omega))
      (fun j hj1 hj2 => by
        have := hctx (j - 1) (by omega)
        rwa [show j - 1 + 1 = j by omega] at this)
    simp only [Nat.zero_add, Nat.sub_self] at hwalk
    rw [hwv, hwalk]
    exact waitAux_timeout w timeout (hget timeout le_rfl)
  · intro k e hk hget hctx hc
    have hwalk := waitAux_walk w k timeout 0 (by omega)
      (fun j _ hj2 => hget j (by omega))
      (fun j hj1 hj2 => by
        have := hctx (j - 1) (by omega)
        rwa [show j - 1 + 1 = j by omega] at this)
    simp only [Nat.zero_add] at hwalk
    obtain ⟨m, hm⟩ : ∃ m, timeout - k = m + 1 := ⟨timeout - k - 1, by omega⟩
    rw [hwv, hwalk, hm]
    exact waitAux_ctx w m k e (hget k le_rfl) hc

/-- C7 witness: a ready first poll succeeds immediately under the default
600-second timeout; a failing get at second 2 propagates its error; a VM
never ready within 3 seconds yields the timeout error; a context cancelled
before the poll of second 2 yields the cancellation error. -/
theorem claim_C7_readiness_waiter_witness :
    waitInterval = 1 ∧
    waitVMReady okWaitEnv 600 = none ∧
    waitVMReady errWaitEnv 5 = some (GoError.msg "get failed") ∧
    waitVMReady neverReadyWaitEnv 3 = some GoError.waitTimeout ∧
    waitVMReady cancelWaitEnv 5 = some GoError.canceled := by
  have h600 := claim_C7_readiness_waiter okWaitEnv 600
  have herr := claim_C7_readiness_waiter errWaitEnv 5
  have htm := claim_C7_readiness_waiter neverReadyWaitEnv 3
  have hcn := claim_C7_readiness_waiter cancelWaitEnv 5
  refine ⟨h600.1, h600.2.1 rfl, ?_, ?_, ?_⟩
  · exact (herr.2.2.2.1 2 (by omega) (by decide) (by decide)).2
      (GoError.msg "get failed") (by decide)
  · exact htm.2.2.2.2.1 (by decide) (by decide)
  · exact hcn.2.2.2.2.2 1 GoError.canceled (by omega) (by decide) (by decide)
      (by decide)

/-- A context status other than explicit cancellation never fires a gate. -/
theorem gate_false_of_ne_canceled (c : CtxStatus) (h : c ≠ CtxStatus.canceled) :
    errorsIsCanceled c.err = false := by
  cases c with
  | live => rfl
  | canceled => exact absurd rfl h
  | deadlineExceeded => rfl

/-- With no gate observing explicit cancellation, the test loop never
returns silently. -/
theorem runTests_not_silent (f : Nat → Option GoError) (g : Nat → CtxStatus)
    (tags : List String) :
    ∀ n i, (∀ j, g j ≠ CtxStatus.canceled) →
      ¬((runTests f g tags n i).res = none ∧
        (runTests f g tags n i).err = none) := by
  intro n
  induction n with
  | zero =>
    intro i _ hcon
    rw [runTests_eq_zero] at hcon
    simp at hcon
  | succ n ih =>
    intro i hg hcon
    cases hf : f i with
    | some e =>
      rw [runTests_eq_fail f g tags n i e hf] at hcon
      simp at hcon
    | none =>
      have hc : errorsIsCanceled (g i).err = false :=
        gate_false_of_ne_canceled (g i) (hg i)
      rw [runTests_eq_step f g tags n i hf hc] at hcon
      exact ih (i + 1) hg hcon

/-- With no gate observing explicit cancellation, the post-create stages
never return silently. -/
theorem afterCreate_not_silent (env : AttemptEnv) (a : Artifact)
    (tags : List String) (vmName : String) (timeout : Nat)
    (h2 : env.ctx2 ≠ CtxStatus.canceled)
    (hcw : env.ctxAfterWait ≠ CtxStatus.canceled)
    (h3 : env.ctx3 ≠ CtxStatus.canceled)
    (ht : ∀ i, env.ctxTest i ≠ CtxStatus.canceled) :
    ¬((afterCreate env a tags vmName timeout).res = none ∧
      (afterCreate env a tags vmName timeout).err = none) := by
  have h2' := gate_false_of_ne_canceled env.ctx2 h2
  have hcw' := gate_false_of_ne_canceled env.ctxAfterWait hcw
  have h3' := gate_false_of_ne_canceled env.ctx3 h3
  intro hcon
  cases hw : waitVMReady env.waitEnv timeout with
  | some e =>
    rw [afterCreate_eq_waitErr env a tags vmName timeout e h2' hw hcw'] at hcon
    simp at hcon
  | none =>
    cases hgv : env.getVMIErr with
    | some e =>
      rw [afterCreate_eq_getVMIErr env a tags vmName timeout e h2' hw hgv] at hcon
      simp at hcon
    | none =>
      rw [afterCreate_eq_tests env a tags vmName timeout h2' hw hgv h3'] at hcon
      exact runTests_not_silent env.testOutcome env.ctxTest tags a.numTests 0
        ht hcon

/-- With tags present and no gate observing explicit cancellation, the
attempt never returns silently: it produces a result or an error. -/
theorem verifyArtifact_not_silent (env : AttemptEnv) (a : Artifact)
    (r : ArtifactResult) (opts : VerifyOptions) (htne : r.tags ≠ [])
    (h1 : env.ctx1 ≠ CtxStatus.canceled)
    (h2 : env.ctx2 ≠ CtxStatus.canceled)
    (hcw : env.ctxAfterWait ≠ CtxStatus.canceled)
    (h3 : env.ctx3 ≠ CtxStatus.canceled)
    (ht : ∀ i, env.ctxTest i ≠ CtxStatus.canceled) :
    ¬((verifyArtifact env a r opts).res = none ∧
      (verifyArtifact env a r opts).err = none) := by
  obtain ⟨t0, ts, htags⟩ := List.exists_cons_of_ne_nil htne
  have h1' := gate_false_of_ne_canceled env.ctx1 h1
  intro hcon
  rcases hcv : createVM env a (pathJoin opts.registry t0) with ⟨evs, ex⟩
  cases ex with
  | error e =>
    rw [verifyArtifact_eq_cvErr env a r opts t0 ts evs e htags hcv] at hcon
    simp at hcon
  | ok vm =>
    cases hce : env.createErr with
    | some e =>
      rw [verifyArtifact_eq_createErr env a r opts t0 ts evs vm e htags hcv
        h1' hce] at hcon
      simp at hcon
    | none =>
      rw [verifyArtifact_eq_main env a r opts t0 ts evs vm htags hcv h1' hce]
        at hcon
      exact afterCreate_not_silent env a r.tags vm.name opts.timeout h2 hcw h3
        ht hcon

/-- C10: the cancellation checkpoints recognize only the explicit
cancellation sentinel: `errors.Is(ctx.Err(), Canceled)` is false on a
deadline-expired context, so with every checkpoint observing
DeadlineExceeded no gate fires — an attempt with tags never terminates in
the silent (nil result, nil error) way — and a stage failure caused by the
expired context (the wait returning DeadlineExceeded) is returned as an
ordinary error. -/
theorem claim_C10_deadline_is_ordinary_error (env : AttemptEnv) (a : Artifact)
    (r : ArtifactResult) (opts : VerifyOptions) (hd : allGatesDeadline env) :
    errorsIsCanceled CtxStatus.deadlineExceeded.err = false ∧
    (r.tags ≠ [] → ¬((verifyArtifact env a r opts).res = none ∧
      (verifyArtifact env a r opts).err = none)) ∧
    (createReached env r → env.createErr = none →
      waitVMReady env.waitEnv opts.timeout = some GoError.deadlineExceeded →
      (verifyArtifact env a r opts).res = none ∧
      (verifyArtifact env a r opts).err = some GoError.deadlineExceeded) := by
  obtain ⟨hd1, hd2, hdw, hd3, hdt⟩ := hd
  refine ⟨rfl, ?_, ?_⟩
  · intro htne
    exact verifyArtifact_not_silent env a r opts htne (by rw [hd1]; simp)
      (by rw [hd2]; simp) (by rw [hdw]; simp) (by rw [hd3]; simp)
      (fun i => by rw [hdt i]; simp)
  · intro hcr hce hw
    obtain ⟨htne, hk, hs, hm, h1⟩ := hcr
    obtain ⟨t0, ts, htags⟩ := List.exists_cons_of_ne_nil htne
    have h1' : errorsIsCanceled env.ctx1.err = false := by simpa using h1
    have hcv := createVM_ok env a (pathJoin opts.registry t0) hk hs hm
    have h2' : errorsIsCanceled env.ctx2.err = false := by rw [hd2]; rfl
    have hcw' : errorsIsCanceled env.ctxAfterWait.err = false := by rw [hdw]; rfl
    have hmain := verifyArtifact_eq_main env a r opts t0 ts [Event.generateKey]
      ⟨randName a.name env.nameSuffix, pathJoin opts.registry t0⟩ htags hcv
      h1' hce
    have hac := afterCreate_eq_waitErr env a r.tags
      (randName a.name env.nameSuffix) opts.timeout GoError.deadlineExceeded
      h2' hw hcw'
    rw [hmain, hac]
    exact ⟨rfl, rfl⟩

/-- C10 witness: under an environment whose every checkpoint observes an
expired deadline and whose wait aborts with DeadlineExceeded, the concrete
attempt returns that error rather than the silent termination. -/
theorem claim_C10_deadline_is_ordinary_error_witness :
    errorsIsCanceled CtxStatus.deadlineExceeded.err = false ∧
    ¬((verifyArtifact deadlineEnv fedoraArtifact ⟨["fedora:39"], false⟩
        (defaultVerifyOptions "registry.example")).res = none ∧
      (verifyArtifact deadlineEnv fedoraArtifact ⟨["fedora:39"], false⟩
        (defaultVerifyOptions "registry.example")).err = none) ∧
    ((verifyArtifact deadlineEnv fedoraArtifact ⟨["fedora:39"], false⟩
        (defaultVerifyOptions "registry.example")).res = none ∧
      (verifyArtifact deadlineEnv fedoraArtifact ⟨["fedora:39"], false⟩
        (defaultVerifyOptions "registry.example")).err =
        some GoError.deadlineExceeded) := by
  have h := claim_C10_deadline_is_ordinary_error deadlineEnv fedoraArtifact
    ⟨["fedora:39"], false⟩ (defaultVerifyOptions "registry.example")
    ⟨rfl, rfl, rfl, rfl, fun _ => rfl⟩
  exact ⟨h.1, h.2.1 (by simp),
    h.2.2 ⟨by simp, rfl, rfl, by decide, by decide⟩ rfl (by decide)⟩

/-- A worker result sent by the callback is keyed by the artifact's
describe string. -/
theorem workerCallback_sent_key (m : Ledger) (env : AttemptEnv)
    (opts : VerifyOptions) (a : Artifact) (wr : WorkerResult)
    (h : (workerCallback m env opts a).sent = some wr) :
    wr.key = a.describe := by
  cases hm : m a.describe with
  | none =>
    simp [workerCallback, hm] at h
  | some r =>
    cases hv : r.verified with
    | true =>
      simp [workerCallback, hm, hv] at h
    | false =>
      simp [workerCallback, hm, hv, Option.map_eq_some'] at h
      obtain ⟨v, -, hw⟩ := h
      subst hw
      rfl

/-- Each catalog artifact contributes at most one result per key: the
number of collected results carrying key `k` is bounded by the number of
catalog artifacts whose describe string is `k`. -/
theorem worker_results_count (m : Ledger) (opts : VerifyOptions)
    (envs : Artifact → AttemptEnv) (k : String) :
    ∀ catalog : List Artifact,
      ((catalog.map (fun a => workerCallback m (envs a) opts a)).filterMap
        (fun c => c.sent)).countP (fun wr => decide (wr.key = k)) ≤
      catalog.countP (fun a => decide (a.describe = k)) := by
  intro catalog
  induction catalog with
  | nil => simp
  | cons a rest ih =>
    simp only [List.map_cons, List.filterMap_cons, List.countP_cons]
    cases hs : (workerCallback m (envs a) opts a).sent with
    | none =>
      exact le_trans ih (Nat.le_add_right _ _)
    | some wr =>
      have hk := workerCallback_sent_key m (envs a) opts a wr hs
      simp only [List.countP_cons, hk]
      exact Nat.add_le_add ih (Nat.le_refl _)

/-- The ledger fold maps a received key to its (unique, by nodup) value. -/
theorem mergeResults_received (k : String) (v : ArtifactResult) :
    ∀ (rs : List WorkerResult) (m : Ledger), (⟨k, v⟩ : WorkerResult) ∈ rs →
      (rs.map (fun wr => wr.key)).Nodup → mergeResults m rs k = some v := by
  intro rs
  induction rs with
  | nil =>
    intro m h _
    simp at h
  | cons r rs ih =>
    intro m hmem hnd
    simp only [List.map_cons, List.nodup_cons] at hnd
    have hstep : mergeResults m (r :: rs) k =
        mergeResults (ledgerInsert m r.key r.value) rs k := rfl
    rcases List.mem_cons.mp hmem with heq | hmem'
    · have hk : r.key = k := by rw [← heq]
      have hv : r.value = v := by rw [← heq]
      have hnone : ∀ wr ∈ rs, wr.key ≠ k := by
        intro wr hw hcon
        apply hnd.1
        rw [hk, ← hcon]
        exact List.mem_map_of_mem (fun wr => wr.key) hw
      rw [hstep, mergeResults_not_received k rs _ hnone]
      unfold ledgerInsert
      rw [if_pos hk.symm, hv]
    · exact ih (ledgerInsert m r.key r.value) hmem' hnd.2

/-- For pairwise distinct keys, the folded ledger does not depend on the
order in which the results arrived. -/
theorem mergeResults_perm (rs rs' : List WorkerResult) (hp : rs.Perm rs')
    (hnd : (rs.map (fun wr => wr.key)).Nodup) (m : Ledger) (x : String) :
    mergeResults m rs x = mergeResults m rs' x := by
  by_cases hx : ∃ v, (⟨x, v⟩ : WorkerResult) ∈ rs
  · obtain ⟨v, hv⟩ := hx
    have hnd' : (rs'.map (fun wr => wr.key)).Nodup :=
      ((hp.map (fun wr => wr.key)).nodup_iff).mp hnd
    rw [mergeResults_received x v rs m hv hnd,
      mergeResults_received x v rs' m (hp.mem_iff.mp hv) hnd']
  · push_neg at hx
    have h1 : ∀ wr ∈ rs, wr.key ≠ x := by
      intro wr hw hcon
      have hwr : wr = ⟨x, wr.value⟩ := by
        cases wr
        simp_all
      exact hx wr.value (hwr ▸ hw)
    have h2 : ∀ wr ∈ rs', wr.key ≠ x :=
      fun wr hw => h1 wr (hp.mem_iff.mpr hw)
    rw [mergeResults_not_received x rs m h1,
      mergeResults_not_received x rs' m h2]

/-- C5: the results channel is created with capacity equal to the number
of catalog entries; each worker sends at most one result per artifact
(keyed by its describe string); the drain after close overwrites exactly
the received keys, leaving every other entry untouched; and for pairwise
distinct keys the final ledger is independent of arrival order. -/
theorem claim_C5_channel_and_merge (catalog : List Artifact) (m : Ledger)
    (envs : Artifact → AttemptEnv) (opts : VerifyOptions)
    (rs rs' : List WorkerResult) (k : String) (v : ArtifactResult) :
    resultsChanCapacity catalog = catalog.length ∧
    (((catalog.map (fun a => workerCallback m (envs a) opts a)).filterMap
        (fun c => c.sent)).countP (fun wr => decide (wr.key = k)) ≤
      catalog.countP (fun a => decide (a.describe = k))) ∧
    ((∀ wr ∈ rs, wr.key ≠ k) → mergeResults m rs k = m k) ∧
    ((⟨k, v⟩ : WorkerResult) ∈ rs → (rs.map (fun wr => wr.key)).Nodup →
      mergeResults m rs k = some v) ∧
    (rs.Perm rs' → (rs.map (fun wr => wr.key)).Nodup →
      mergeResults m rs k = mergeResults m rs' k) := by
  refine ⟨rfl, worker_results_count m opts envs k catalog, ?_, ?_, ?_⟩
  · intro h
    exact mergeResults_not_received k rs m h
  · intro hmem hnd
    exact mergeResults_received k v rs m hmem hnd
  · intro hp hnd
    exact mergeResults_perm rs rs' hp hnd m k

/-- C5 witness: with two concrete distinct-key results, a key that
received no result keeps its prior entry, the received key is overwritten
with its value, and the merged ledger agrees for both arrival orders. -/
theorem claim_C5_channel_and_merge_witness :
    mergeResults fedoraLedger twoResults "debian" = fedoraLedger "debian" ∧
    mergeResults fedoraLedger twoResults "fedora" =
      some ⟨["fedora:39"], true⟩ ∧
    mergeResults fedoraLedger twoResults "fedora" =
      mergeResults fedoraLedger twoResultsSwapped "fedora" ∧
    resultsChanCapacity [fedoraArtifact] = [fedoraArtifact].length := by
  have hA := claim_C5_channel_and_merge [fedoraArtifact] fedoraLedger
    (fun _ => successEnv) (defaultVerifyOptions "registry.example")
    twoResults twoResultsSwapped "debian" ⟨[], false⟩
  have hB := claim_C5_channel_and_merge [fedoraArtifact] fedoraLedger
    (fun _ => successEnv) (defaultVerifyOptions "registry.example")
    twoResults twoResultsSwapped "fedora" ⟨["fedora:39"], true⟩
  exact ⟨hA.2.2.1 (by decide), hB.2.2.2.1 (by decide) (by decide),
    hB.2.2.2.2 (by decide) (by decide), hA.1⟩

/-- C1 counterexample: the artifact "fedora" with NO entry in the ledger is
not dispatched — the callback of lines 54-57 returns immediately on `!ok`
without invoking `verifyArtifact`, performing no external call — refuting
both that the skip happens exactly on a verified ledger entry and that an
absent-entry artifact is dispatched and creates a VM. -/
theorem claim_C1_counterexample :
    emptyLedger fedoraArtifact.describe = none ∧
    (workerCallback emptyLedger successEnv
        (defaultVerifyOptions "registry.example") fedoraArtifact).dispatched =
      false ∧
    (workerCallback emptyLedger successEnv
        (defaultVerifyOptions "registry.example") fedoraArtifact).events = [] :=
  ⟨rfl, rfl, rfl⟩

/-- C1 amended: the orchestrator skips dispatching a verification attempt
exactly when the ledger has no entry for the artifact or marks it
verified; an artifact whose ledger entry has Verified=false and a
non-empty tag set is dispatched, and on full test success the merged
ledger maps it to an entry carrying the original tags with Verified=true,
the created VM having been deleted. -/
theorem claim_C1_amended (m : Ledger) (env : AttemptEnv) (opts : VerifyOptions)
    (a : Artifact) :
    ((workerCallback m env opts a).dispatched = true ↔
      ∃ r, m a.describe = some r ∧ r.verified = false) ∧
    (∀ r t0 ts, m a.describe = some r → r.verified = false →
      r.tags = t0 :: ts → allSuccessEnv env a opts.timeout →
      runVerify (fun _ => env) [a] m opts a.describe = some ⟨r.tags, true⟩ ∧
      Event.delete (randName a.name env.nameSuffix) 0 ∈
        (workerCallback m env opts a).events) := by
  constructor
  · constructor
    · intro hd
      cases hm : m a.describe with
      | none =>
        simp [workerCallback, hm] at hd
      | some r =>
        cases hv : r.verified with
        | true => simp [workerCallback, hm, hv] at hd
        | false => exact ⟨r, rfl, hv⟩
    · rintro ⟨r, hm, hv⟩
      simp [workerCallback, hm, hv]
  · intro r t0 ts hm hv htags hsucc
    have hva := verifyArtifact_success env a r opts t0 ts htags hsucc
    have hsent : (workerCallback m env opts a).sent =
        some ⟨a.describe, ⟨r.tags, true⟩⟩ := by
      simp [workerCallback, hm, hv, hva]
    constructor
    · unfold runVerify mergeResults
      simp [hsent, ledgerInsert]
    · have hev : (workerCallback m env opts a).events =
          (verifyArtifact env a r opts).events := by
        simp [workerCallback, hm, hv]
      rw [hev, hva]
      simp

/-- C1 amended witness: with an unverified single-tag fedora ledger entry
and an all-success environment, the artifact is dispatched, the final
ledger carries the original tag verified, and the VM was deleted. -/
theorem claim_C1_amended_witness :
    (workerCallback fedoraLedger successEnv
        (defaultVerifyOptions "registry.example") fedoraArtifact).dispatched =
      true ∧
    runVerify (fun _ => successEnv) [fedoraArtifact] fedoraLedger
        (defaultVerifyOptions "registry.example") fedoraArtifact.describe =
      some ⟨["fedora:39"], true⟩ ∧
    Event.delete (randName fedoraArtifact.name successEnv.nameSuffix) 0 ∈
      (workerCallback fedoraLedger successEnv
        (defaultVerifyOptions "registry.example") fedoraArtifact).events := by
  have h := claim_C1_amended fedoraLedger successEnv
    (defaultVerifyOptions "registry.example") fedoraArtifact
  have h2 := h.2 ⟨["fedora:39"], false⟩ "fedora:39" [] (by decide) rfl rfl
    ⟨rfl, rfl, by decide, rfl, rfl, rfl, by decide, rfl, rfl, by decide⟩
  exact ⟨h.1.mpr ⟨⟨["fedora:39"], false⟩, by decide, rfl⟩, h2.1, h2.2⟩
